import Mathlib

/-!
Verification of the `edi-835-parser` repository: a shallow embedding of its
string preprocessing, tokenization, segment construction, loop building and
JSON projection, together with theorems settling the specification claims.

Strings are embedded as `List Char`; Python `str.replace`, `str.split`,
`str.strip` become the explicit list functions below.
-/

abbrev Str := List Char

/-- Python `s.replace(a, b)` for single characters `a`, `b`. -/
def replaceChar (a b : Char) (s : Str) : Str :=
  s.map (fun c => if c = a then b else c)

/-- Python `s.replace(a, '')` for a single character `a`. -/
def removeChar (a : Char) (s : Str) : Str :=
  s.filter (fun c => c ≠ a)

/-- Whitespace characters trimmed by Python `str.strip()`. -/
def isPyWhitespace (c : Char) : Bool :=
  c = ' ' || c = '\t' || c = '\n' || c = '\x0d' || c = '\x0b' || c = '\x0c'

/-- Python `s.strip()`: drop leading and trailing whitespace. -/
def pyStrip (s : Str) : Str :=
  ((s.dropWhile isPyWhitespace).reverse.dropWhile isPyWhitespace).reverse

/-- Python `s.split(t)` for a single-character separator `t`:
always returns at least one piece; empty pieces are kept. -/
def splitOnChar (t : Char) : Str → List Str
  | [] => [[]]
  | c :: cs =>
    if c = t then [] :: splitOnChar t cs
    else
      match splitOnChar t cs with
      | [] => [[c]]
      | p :: ps => (c :: p) :: ps

/-- `src/edi_835_parser/__init__.py`, `preprocess_edi_content`: replace the
group separator `\x1d` with `*`, the record separator `\x1e` with `~`,
remove newlines, then replace the unit separator `\x1f` with `:`. -/
def preprocess_edi_content (content : Str) : Str :=
  replaceChar '\x1f' ':'
    (removeChar '\n'
      (replaceChar '\x1e' '~'
        (replaceChar '\x1d' '*' content)))

/-- The check used in `_build_transaction_set` and `TransactionSet.to_json`:
`any(char in content for char in ['\x1d', '\x1e', '\x1f'])`. -/
def needs_preprocessing (content : Str) : Bool :=
  content.contains '\x1d' || content.contains '\x1e' || content.contains '\x1f'

/-- `TransactionSet.to_json` record extraction (lines 139-143): split on the
terminator, strip every piece and keep the non-blank ones. -/
def tokenizeRecords (t : Char) (content : Str) : List Str :=
  ((splitOnChar t content).filter (fun s => pyStrip s ≠ [])).map pyStrip

/-- `TransactionSet.to_json` lines 128-143: choose the `:` terminator on
preprocessed content and `~` otherwise. -/
def jsonRecords (content : Str) : List Str :=
  if needs_preprocessing content then
    tokenizeRecords ':' (preprocess_edi_content content)
  else
    tokenizeRecords '~' content

lemma preprocess_append (a b : Str) :
    preprocess_edi_content (a ++ b) = preprocess_edi_content a ++ preprocess_edi_content b := by
  simp [preprocess_edi_content, replaceChar, removeChar]

lemma preprocess_singleton (c : Char)
    (h1 : c ≠ '\x1d') (h2 : c ≠ '\x1e') (h3 : c ≠ '\n') (h4 : c ≠ '\x1f') :
    preprocess_edi_content [c] = [c] := by
  simp [preprocess_edi_content, replaceChar, removeChar, h1, h2, h3, h4]

lemma preprocess_singleton_idem (c : Char) :
    preprocess_edi_content (preprocess_edi_content [c]) = preprocess_edi_content [c] := by
  by_cases h1 : c = '\x1d'
  · subst h1; decide
  by_cases h2 : c = '\x1e'
  · subst h2; decide
  by_cases h3 : c = '\n'
  · subst h3; decide
  by_cases h4 : c = '\x1f'
  · subst h4; decide
  rw [preprocess_singleton c h1 h2 h3 h4, preprocess_singleton c h1 h2 h3 h4]

lemma preprocess_no_special (s : Str) :
    ∀ c ∈ preprocess_edi_content s, c ≠ '\x1d' ∧ c ≠ '\x1e' ∧ c ≠ '\n' ∧ c ≠ '\x1f' := by
  induction s with
  | nil => intro c hc; simp [preprocess_edi_content, replaceChar, removeChar] at hc
  | cons a s ih =>
    intro c hc
    rw [show a :: s = [a] ++ s from rfl, preprocess_append] at hc
    rcases List.mem_append.1 hc with h | h
    · by_cases h1 : a = '\x1d'
      · subst h1
        rw [show preprocess_edi_content ['\x1d'] = ['*'] from by decide] at h
        simp at h; subst h; decide
      by_cases h2 : a = '\x1e'
      · subst h2
        rw [show preprocess_edi_content ['\x1e'] = ['~'] from by decide] at h
        simp at h; subst h; decide
      by_cases h3 : a = '\n'
      · subst h3
        rw [show preprocess_edi_content ['\n'] = [] from by decide] at h
        simp at h
      by_cases h4 : a = '\x1f'
      · subst h4
        rw [show preprocess_edi_content ['\x1f'] = [':'] from by decide] at h
        simp at h; subst h; decide
      · rw [preprocess_singleton a h1 h2 h3 h4] at h
        simp at h
        subst h
        exact ⟨h1, h2, h3, h4⟩
    · exact ih c h

/-- C9: `preprocess_edi_content` is idempotent, because its output never
contains any of the replaced characters (`\x1d`, `\x1e`, `\x1f`, newline). -/
theorem preprocess_edi_content_idempotent (s : Str) :
    preprocess_edi_content (preprocess_edi_content s) = preprocess_edi_content s ∧
    ∀ c ∈ preprocess_edi_content s,
      c ≠ '\x1d' ∧ c ≠ '\x1e' ∧ c ≠ '\x1f' ∧ c ≠ '\n' := by
  constructor
  · induction s with
    | nil => decide
    | cons a s ih =>
      rw [show a :: s = [a] ++ s from rfl, preprocess_append, preprocess_append,
        preprocess_singleton_idem, ih]
  · intro c hc
    obtain ⟨u1, u2, u3, u4⟩ := preprocess_no_special s c hc
    exact ⟨u1, u2, u4, u3⟩

/-- Witness for C9 at a concrete input containing every replaced character. -/
theorem preprocess_edi_content_idempotent_witness :
    preprocess_edi_content (preprocess_edi_content ('\x1d' :: '\x1e' :: '\n' :: '\x1f' :: ['A']))
      = preprocess_edi_content ('\x1d' :: '\x1e' :: '\n' :: '\x1f' :: ['A']) ∧
    ('*' ≠ '\x1d' ∧ '*' ≠ '\x1e' ∧ '*' ≠ '\x1f' ∧ '*' ≠ '\n') := by
  refine ⟨(preprocess_edi_content_idempotent _).1, ?_⟩
  exact (preprocess_edi_content_idempotent ('\x1d' :: '\x1e' :: '\n' :: '\x1f' :: ['A'])).2
    '*' (by decide)

/-- The control-character encoding of a standard-delimiter document:
`*` becomes the group separator and `~` becomes the unit separator. -/
def ctrlEncode (std : Str) : Str :=
  std.map (fun c => if c = '*' then '\x1d' else if c = '~' then '\x1f' else c)

/-- Swapping the record terminator `~` for the alternate terminator `:`. -/
def swapTerminator (std : Str) : Str :=
  std.map (fun c => if c = '~' then ':' else c)

lemma removeChar_replaceChar_comm (a b x : Char) (ha : a ≠ x) (hb : b ≠ x) (s : Str) :
    removeChar x (replaceChar a b s) = replaceChar a b (removeChar x s) := by
  induction s with
  | nil => rfl
  | cons c cs ih =>
    by_cases hc : c = a
    · subst hc
      simp [removeChar, replaceChar, List.filter, ha, hb] at *
      simpa [ha, hb] using ih
    · by_cases hx : c = x
      · subst hx
        simp [removeChar, replaceChar, List.filter, hc] at *
        simpa [hc] using ih
      · simp [removeChar, replaceChar, List.filter, hc, hx] at *
        simpa [hc, hx] using ih

lemma preprocess_removeChar_newline (s : Str) :
    preprocess_edi_content s = preprocess_edi_content (removeChar '\n' s) := by
  have h1 : ∀ t : Str, removeChar '\n' (replaceChar '\x1d' '*' t)
      = replaceChar '\x1d' '*' (removeChar '\n' t) :=
    fun t => removeChar_replaceChar_comm _ _ _ (by decide) (by decide) t
  have h2 : ∀ t : Str, removeChar '\n' (replaceChar '\x1e' '~' t)
      = replaceChar '\x1e' '~' (removeChar '\n' t) :=
    fun t => removeChar_replaceChar_comm _ _ _ (by decide) (by decide) t
  have h3 : ∀ t : Str, removeChar '\n' (removeChar '\n' t) = removeChar '\n' t := by
    intro t
    simp [removeChar, List.filter_filter]
  simp only [preprocess_edi_content, h2, h1, h3]

lemma preprocess_ctrlEncode (std : Str)
    (h : ∀ c ∈ std, c ≠ '\x1d' ∧ c ≠ '\x1e' ∧ c ≠ '\x1f' ∧ c ≠ '\n') :
    preprocess_edi_content (ctrlEncode std) = swapTerminator std := by
  induction std with
  | nil => decide
  | cons c cs ih =>
    have hm : ctrlEncode (c :: cs) = ctrlEncode [c] ++ ctrlEncode cs := by
      simp [ctrlEncode]
    rw [hm, preprocess_append]
    have hcs : preprocess_edi_content (ctrlEncode cs) = swapTerminator cs :=
      ih (fun d hd => h d (List.mem_cons_of_mem c hd))
    obtain ⟨n1, n2, n3, n4⟩ := h c (List.mem_cons_self c cs)
    by_cases hstar : c = '*'
    · subst hstar
      rw [show ctrlEncode ['*'] = ['\x1d'] from by decide,
        show preprocess_edi_content ['\x1d'] = ['*'] from by decide, hcs]
      simp [swapTerminator]
    by_cases htilde : c = '~'
    · subst htilde
      rw [show ctrlEncode ['~'] = ['\x1f'] from by decide,
        show preprocess_edi_content ['\x1f'] = [':'] from by decide, hcs]
      simp [swapTerminator]
    · have henc : ctrlEncode [c] = [c] := by simp [ctrlEncode, hstar, htilde]
      have hswap : swapTerminator (c :: cs) = c :: swapTerminator cs := by
        simp [swapTerminator, htilde]
      rw [henc, preprocess_singleton c n1 n2 n4 n3, hcs, hswap]
      rfl

lemma splitOnChar_ne_nil (t : Char) (s : Str) : splitOnChar t s ≠ [] := by
  cases s with
  | nil => simp [splitOnChar]
  | cons c cs =>
    simp only [splitOnChar]
    by_cases hc : c = t
    · simp [hc]
    · simp only [hc, if_false]
      cases splitOnChar t cs with
      | nil => simp
      | cons p ps => simp

lemma splitOnChar_cons_sep (t : Char) (l : Str) :
    splitOnChar t (t :: l) = [] :: splitOnChar t l := by
  simp [splitOnChar]

lemma splitOnChar_cons_ne (t c : Char) (l : Str) (h : c ≠ t) :
    splitOnChar t (c :: l) =
      match splitOnChar t l with
      | [] => [[c]]
      | p :: ps => (c :: p) :: ps := by
  simp [splitOnChar, h]

lemma splitOnChar_swapTerminator (std : Str) (h : ∀ c ∈ std, c ≠ ':') :
    splitOnChar ':' (swapTerminator std) = splitOnChar '~' std := by
  induction std with
  | nil => rfl
  | cons c cs ih =>
    have hcs := ih (fun d hd => h d (List.mem_cons_of_mem c hd))
    have hc : c ≠ ':' := h c (List.mem_cons_self c cs)
    by_cases htilde : c = '~'
    · subst htilde
      have e1 : swapTerminator ('~' :: cs) = ':' :: swapTerminator cs := by
        simp [swapTerminator]
      rw [e1, splitOnChar_cons_sep, splitOnChar_cons_sep, hcs]
    · have e1 : swapTerminator (c :: cs) = c :: swapTerminator cs := by
        simp [swapTerminator, htilde]
      rw [e1, splitOnChar_cons_ne ':' c _ hc, splitOnChar_cons_ne '~' c _ htilde, hcs]

lemma tokenizeRecords_swapTerminator (std : Str) (h : ∀ c ∈ std, c ≠ ':') :
    tokenizeRecords ':' (swapTerminator std) = tokenizeRecords '~' std := by
  unfold tokenizeRecords
  rw [splitOnChar_swapTerminator std h]

/-- C4 amended: a document using the group separator between fields, the
unit separator between records and embedded line breaks tokenizes (after
preprocessing, with the `:` terminator used for preprocessed content)
exactly like the standard `*`-and-`~` document with no line breaks. -/
theorem preprocess_tokenize_equiv_unit_separator (std s : Str)
    (hstd : ∀ c ∈ std, c ≠ '\x1d' ∧ c ≠ '\x1e' ∧ c ≠ '\x1f' ∧ c ≠ '\n' ∧ c ≠ ':')
    (hs : removeChar '\n' s = ctrlEncode std)
    (hneed : needs_preprocessing s = true) :
    jsonRecords s = jsonRecords std := by
  have hstd4 : ∀ c ∈ std, c ≠ '\x1d' ∧ c ≠ '\x1e' ∧ c ≠ '\x1f' ∧ c ≠ '\n' := by
    intro c hc
    obtain ⟨a, b, d, e, _⟩ := hstd c hc
    exact ⟨a, b, d, e⟩
  have hcolon : ∀ c ∈ std, c ≠ ':' := fun c hc => (hstd c hc).2.2.2.2
  have hnostd : needs_preprocessing std = false := by
    have m1 : '\x1d' ∉ std := fun hm => (hstd4 '\x1d' hm).1 rfl
    have m2 : '\x1e' ∉ std := fun hm => (hstd4 '\x1e' hm).2.1 rfl
    have m3 : '\x1f' ∉ std := fun hm => (hstd4 '\x1f' hm).2.2.1 rfl
    simp [needs_preprocessing, m1, m2, m3]
  have lhs : jsonRecords s = tokenizeRecords ':' (preprocess_edi_content s) := by
    simp [jsonRecords, hneed]
  have rhs : jsonRecords std = tokenizeRecords '~' std := by
    simp [jsonRecords, hnostd]
  rw [lhs, rhs, preprocess_removeChar_newline, hs, preprocess_ctrlEncode std hstd4,
    tokenizeRecords_swapTerminator std hcolon]

/-- Witness for the amended C4 at a concrete control-character document. -/
theorem preprocess_tokenize_equiv_unit_separator_witness :
    jsonRecords ("ISA\x1dA\x1f\nGS\x1dB".toList) = jsonRecords ("ISA*A~GS*B".toList) :=
  preprocess_tokenize_equiv_unit_separator ("ISA*A~GS*B".toList)
    ("ISA\x1dA\x1f\nGS\x1dB".toList) (by decide) (by decide) (by decide)

/-- C4 counterexample: with the record separator `\x1e` between records,
preprocessing maps it to `~` but the preprocessed content is split on `:`,
so the whole document tokenizes as one record, unlike the standard
`*`-and-`~` equivalent. -/
theorem preprocess_tokenize_x1e_counterexample :
    jsonRecords ("ISA\x1dA\x1eGS\x1dB\n".toList) = ["ISA*A~GS*B".toList] ∧
    jsonRecords ("ISA*A~GS*B".toList) = ["ISA*A".toList, "GS*B".toList] ∧
    jsonRecords ("ISA\x1dA\x1eGS\x1dB\n".toList) ≠ jsonRecords ("ISA*A~GS*B".toList) := by
  refine ⟨by decide, by decide, by decide⟩

/-- `src/edi_835_parser/elements/contact_function_code.py`: the static
contact-function code table. -/
def contact_function_codes : List (String × String) :=
  [("BL", "billing contact"),
   ("CX", "correspondence contact"),
   ("IC", "information contact"),
   ("TE", "technical contact")]

/-- `src/edi_835_parser/elements/communication_qualifier.py`: the static
communication-number qualifier table. -/
def communication_qualifiers : List (String × String) :=
  [("TE", "telephone"),
   ("FX", "facsimile"),
   ("UR", "uniform resource locator (URL)"),
   ("EM", "electronic mail"),
   ("EX", "telephone extension")]

/-- Python `table.get(value, value)` on an association list. -/
def dictGet (table : List (String × String)) (value : String) : String :=
  match table.find? (fun p => p.1 = value) with
  | some p => p.2
  | none => value

/-- `ContactFunctionCode.parser`: `contact_function_codes.get(value, value)`. -/
def ContactFunctionCode_lookup (value : String) : String :=
  dictGet contact_function_codes value

/-- `CommunicationQualifier.parser`: `communication_qualifiers.get(value, value)`. -/
def CommunicationQualifier_lookup (value : String) : String :=
  dictGet communication_qualifiers value

/-- C8: each code-lookup coercion returns the table's description when the
code is in its static table and the raw code itself unchanged otherwise;
the lookup never fails. -/
theorem code_lookup_fallback (value : String) :
    (∀ d, (value, d) ∈ contact_function_codes → ContactFunctionCode_lookup value = d) ∧
    (value ∉ contact_function_codes.map Prod.fst →
      ContactFunctionCode_lookup value = value) ∧
    (∀ d, (value, d) ∈ communication_qualifiers → CommunicationQualifier_lookup value = d) ∧
    (value ∉ communication_qualifiers.map Prod.fst →
      CommunicationQualifier_lookup value = value) := by
  refine ⟨?_, ?_, ?_, ?_⟩
  · intro d hm
    simp [contact_function_codes] at hm
    rcases hm with ⟨h1, h2⟩ | ⟨h1, h2⟩ | ⟨h1, h2⟩ | ⟨h1, h2⟩ <;> subst h1 <;> subst h2 <;> rfl
  · intro h
    simp [contact_function_codes] at h
    obtain ⟨k1, k2, k3, k4⟩ := h
    simp [ContactFunctionCode_lookup, dictGet, contact_function_codes, List.find?,
      Ne.symm k1, Ne.symm k2, Ne.symm k3, Ne.symm k4]
  · intro d hm
    simp [communication_qualifiers] at hm
    rcases hm with ⟨h1, h2⟩ | ⟨h1, h2⟩ | ⟨h1, h2⟩ | ⟨h1, h2⟩ | ⟨h1, h2⟩ <;>
      subst h1 <;> subst h2 <;> rfl
  · intro h
    simp [communication_qualifiers] at h
    obtain ⟨k1, k2, k3, k4, k5⟩ := h
    simp [CommunicationQualifier_lookup, dictGet, communication_qualifiers, List.find?,
      Ne.symm k1, Ne.symm k2, Ne.symm k3, Ne.symm k4, Ne.symm k5]

/-- Witness for C8: a known code maps to its description, an unknown code
passes through unchanged, in both tables. -/
theorem code_lookup_fallback_witness :
    ContactFunctionCode_lookup "TE" = "technical contact" ∧
    ContactFunctionCode_lookup "ZZ" = "ZZ" ∧
    CommunicationQualifier_lookup "TE" = "telephone" ∧
    CommunicationQualifier_lookup "ZZ" = "ZZ" := by
  refine ⟨(code_lookup_fallback "TE").1 _ (by decide),
    (code_lookup_fallback "ZZ").2.1 (by decide),
    (code_lookup_fallback "TE").2.2.1 _ (by decide),
    (code_lookup_fallback "ZZ").2.2.2 (by decide)⟩

/-- The extension test in `_find_edi_835_files`:
`file.endswith('.txt') or file.endswith('.835') or file.endswith('.DAT')`.
File names are embedded as character lists like all other strings. -/
def isEdi835File (file : Str) : Bool :=
  ".txt".toList.isSuffixOf file || ".835".toList.isSuffixOf file ||
    ".DAT".toList.isSuffixOf file

/-- `src/edi_835_parser/__init__.py`, `_find_edi_835_files`: keep the files
with a matching extension, in directory-listing order. The listing is an
explicit argument, standing for `os.listdir(path)`. -/
def find_edi_835_files (listing : List Str) : List Str :=
  listing.filter isEdi835File

/-- `parse_to_json` lines 92-97 (directory branch): raise `ValueError` when
no file matches, otherwise use the first file found. -/
def parse_to_json_select (listing : List Str) : Except String Str :=
  match find_edi_835_files listing with
  | [] => Except.error "ValueError"
  | f :: _ => Except.ok f

/-- C10: on a directory, `parse_to_json` parses only the first file of the
listing whose name ends in `.txt`, `.835` or `.DAT` — every file before it
in the listing has no matching extension and every other file is ignored —
and raises `ValueError` when no file matches. -/
theorem parse_to_json_first_edi_file (listing : List Str) :
    (parse_to_json_select listing = Except.error "ValueError" ↔
      ∀ f ∈ listing, ¬ isEdi835File f) ∧
    (∀ f, parse_to_json_select listing = Except.ok f →
      isEdi835File f ∧
      ∃ pre post, listing = pre ++ f :: post ∧ ∀ g ∈ pre, ¬ isEdi835File g) := by
  constructor
  · constructor
    · intro h
      unfold parse_to_json_select find_edi_835_files at h
      cases hf : listing.filter isEdi835File with
      | nil => exact (List.filter_eq_nil_iff).1 hf
      | cons a as => rw [hf] at h; exact absurd h (by simp)
    · intro h
      unfold parse_to_json_select find_edi_835_files
      rw [List.filter_eq_nil_iff.2 h]
  · intro f h
    unfold parse_to_json_select find_edi_835_files at h
    cases hf : listing.filter isEdi835File with
    | nil => rw [hf] at h; exact absurd h (by simp)
    | cons a as =>
      rw [hf] at h
      have hfa : a = f := by simpa using h
      subst hfa
      obtain ⟨l₁, l₂, hl, hpre, hpa, _⟩ := List.filter_eq_cons_iff.1 hf
      exact ⟨hpa, l₁, l₂, hl, hpre⟩

/-- Witness for C10 on a concrete directory listing. -/
theorem parse_to_json_first_edi_file_witness :
    (parse_to_json_select ["notes.md".toList, "other.pdf".toList]
        = Except.error "ValueError") ∧
    (isEdi835File "b.835".toList ∧
      ∃ pre post,
        ["a.md".toList, "b.835".toList, "c.txt".toList] = pre ++ "b.835".toList :: post ∧
        ∀ g ∈ pre, ¬ isEdi835File g) := by
  constructor
  · exact (parse_to_json_first_edi_file _).1.2 (by decide)
  · exact (parse_to_json_first_edi_file
      ["a.md".toList, "b.835".toList, "c.txt".toList]).2 "b.835".toList (by rfl)

/-- A Python value appearing in a flattened row: a string, a boolean or
`None`. -/
inductive PyVal
  | str (s : Str)
  | bool (b : Bool)
  | null
deriving DecidableEq

/-- Modelled from the spec: a date record owned by a claim or service loop
(the `DateSegment` class is outside `src/`); it carries a positional date
string. -/
structure DateRecord where
  date : Str
deriving DecidableEq

/-- Modelled from the spec: an entity (patient, provider, organization)
with a resolved name (the loop classes are outside `src/`). -/
structure NamedEntity where
  name : PyVal
deriving DecidableEq

/-- Modelled from the spec: a claim status with its payer classification
(already rendered to a string) and forwarding flag. -/
structure ClaimStatus where
  payer_classification : Str
  was_forwarded : Bool
deriving DecidableEq

/-- Modelled from the spec: the claim-header fields read by
`TransactionSet.serialize_service` (the `ClaimLoop` class is outside
`src/`). -/
structure ClaimInfo where
  marker : PyVal
  icn : PyVal
  status : ClaimStatus
deriving DecidableEq

/-- Modelled from the spec: the claim-loop fields read by
`TransactionSet.serialize_service`; optional records are `Option` and a
present record is truthy. -/
structure ClaimLoopView where
  claim : ClaimInfo
  patient : NamedEntity
  rendering_provider : Option NamedEntity
  claim_statement_period_start : Option DateRecord
  claim_statement_period_end : Option DateRecord
deriving DecidableEq

/-- Modelled from the spec: the service-header fields read by
`TransactionSet.serialize_service`. -/
structure ServiceInfo where
  code : PyVal
  modifier : PyVal
  qualifier : PyVal
  allowed_units : PyVal
  billed_units : PyVal
  charge_amount : PyVal
  paid_amount : PyVal
deriving DecidableEq

/-- Modelled from the spec: the service-loop fields read by
`TransactionSet.serialize_service` (the `ServiceLoop` class is outside
`src/`). -/
structure ServiceLoopView where
  service : ServiceInfo
  allowed_amount : PyVal
  service_period_start : Option DateRecord
  service_period_end : Option DateRecord
deriving DecidableEq

/-- Modelled from the spec: the financial-information scalar's transaction
date. -/
structure FinancialInfoView where
  transaction_date : PyVal
deriving DecidableEq

/-- Modelled from the spec: an organization loop exposing its organization
record's name. -/
structure OrganizationView where
  organization : NamedEntity
deriving DecidableEq

/-- An optional date string as the Python value stored in the row. -/
def optDateVal : Option Str → PyVal
  | some s => PyVal.str s
  | none => PyVal.null

/-- `TransactionSet.serialize_service` (lines 81-123): one flattened row
per (claim, service) pair, with the effective start/end dates falling back
from the service to the claim. -/
def serialize_service (financial_information : FinancialInfoView)
    (payer : OrganizationView) (claim : ClaimLoopView) (service : ServiceLoopView) :
    List (String × PyVal) :=
  let start_date : Option Str :=
    match service.service_period_start with
    | some d => some d.date
    | none =>
      match claim.claim_statement_period_start with
      | some d => some d.date
      | none => none
  let end_date : Option Str :=
    match service.service_period_end with
    | some d => some d.date
    | none =>
      match claim.claim_statement_period_end with
      | some d => some d.date
      | none => none
  [("marker", claim.claim.marker),
   ("patient", claim.patient.name),
   ("code", service.service.code),
   ("modifier", service.service.modifier),
   ("qualifier", service.service.qualifier),
   ("allowed_units", service.service.allowed_units),
   ("billed_units", service.service.billed_units),
   ("transaction_date", financial_information.transaction_date),
   ("icn", claim.claim.icn),
   ("charge_amount", service.service.charge_amount),
   ("allowed_amount", service.allowed_amount),
   ("paid_amount", service.service.paid_amount),
   ("payer", payer.organization.name),
   ("start_date", optDateVal start_date),
   ("end_date", optDateVal end_date),
   ("rendering_provider",
     match claim.rendering_provider with
     | some r => r.name
     | none => PyVal.null),
   ("payer_classification", PyVal.str claim.claim.status.payer_classification),
   ("was_forwarded", PyVal.bool claim.claim.status.was_forwarded)]

/-- Looking a key up in a flattened row. -/
def rowLookup (row : List (String × PyVal)) (k : String) : Option PyVal :=
  (row.find? (fun p => p.1 = k)).map (fun p => p.2)

/-- C7: in every flattened (claim, service) row, the effective start date is
the service's start date when present, else the claim's when present, else
absent — and symmetrically for the end date. -/
theorem serialize_service_date_fallback (fi : FinancialInfoView)
    (payer : OrganizationView) (claim : ClaimLoopView) (service : ServiceLoopView) :
    (∀ d, service.service_period_start = some d →
      rowLookup (serialize_service fi payer claim service) "start_date"
        = some (PyVal.str d.date)) ∧
    (service.service_period_start = none →
      ∀ d, claim.claim_statement_period_start = some d →
        rowLookup (serialize_service fi payer claim service) "start_date"
          = some (PyVal.str d.date)) ∧
    (service.service_period_start = none →
      claim.claim_statement_period_start = none →
        rowLookup (serialize_service fi payer claim service) "start_date"
          = some PyVal.null) ∧
    (∀ d, service.service_period_end = some d →
      rowLookup (serialize_service fi payer claim service) "end_date"
        = some (PyVal.str d.date)) ∧
    (service.service_period_end = none →
      ∀ d, claim.claim_statement_period_end = some d →
        rowLookup (serialize_service fi payer claim service) "end_date"
          = some (PyVal.str d.date)) ∧
    (service.service_period_end = none →
      claim.claim_statement_period_end = none →
        rowLookup (serialize_service fi payer claim service) "end_date"
          = some PyVal.null) := by
  refine ⟨?_, ?_, ?_, ?_, ?_, ?_⟩
  · intro d hd
    simp [serialize_service, rowLookup, hd, List.find?, optDateVal]
  · intro hn d hd
    simp [serialize_service, rowLookup, hn, hd, List.find?, optDateVal]
  · intro hn hcn
    simp [serialize_service, rowLookup, hn, hcn, List.find?, optDateVal]
  · intro d hd
    simp [serialize_service, rowLookup, hd, List.find?, optDateVal]
  · intro hn d hd
    simp [serialize_service, rowLookup, hn, hd, List.find?, optDateVal]
  · intro hn hcn
    simp [serialize_service, rowLookup, hn, hcn, List.find?, optDateVal]

/-- Witness for C7: a service with no dates inherits the claim's start date
and has an absent end date when the claim also lacks one. -/
theorem serialize_service_date_fallback_witness :
    rowLookup
      (serialize_service ⟨PyVal.null⟩ ⟨⟨PyVal.null⟩⟩
        ⟨⟨PyVal.null, PyVal.null, ⟨[], false⟩⟩, ⟨PyVal.null⟩, none,
          some ⟨"20230101".toList⟩, none⟩
        ⟨⟨PyVal.null, PyVal.null, PyVal.null, PyVal.null, PyVal.null, PyVal.null,
          PyVal.null⟩, PyVal.null, none, none⟩)
      "start_date" = some (PyVal.str "20230101".toList) ∧
    rowLookup
      (serialize_service ⟨PyVal.null⟩ ⟨⟨PyVal.null⟩⟩
        ⟨⟨PyVal.null, PyVal.null, ⟨[], false⟩⟩, ⟨PyVal.null⟩, none,
          some ⟨"20230101".toList⟩, none⟩
        ⟨⟨PyVal.null, PyVal.null, PyVal.null, PyVal.null, PyVal.null, PyVal.null,
          PyVal.null⟩, PyVal.null, none, none⟩)
      "end_date" = some PyVal.null := by
  constructor
  · exact (serialize_service_date_fallback _ _ _ _).2.1 rfl ⟨"20230101".toList⟩ rfl
  · exact (serialize_service_date_fallback _ _ _ _).2.2.2.2.2 rfl rfl

/-- Modelled from the spec: the Tokenizer splits each record on the field
separator `*` (`split_segment` lives in `segments/utilities.py`, outside
`src/`). -/
def split_segment (s : Str) : List Str :=
  splitOnChar '*' s

/-- Modelled from the spec: missing trailing fields resolve to an explicit
absent value (`get_element` in `segments/utilities.py`, outside `src/`):
the field at the index, or `None` when the record is too short. -/
def get_element (parts : List Str) (i : Nat) : Option Str :=
  parts.get? i

/-- `src/edi_835_parser/segments/trace.py`, the attributes set by
`Trace.__init__`. -/
structure TraceSegmentRec where
  segment : Str
  identifier : Str
  trace_type : Str
  trace_number : Str
  entity_identifier : Option Str
deriving DecidableEq

/-- `Trace.__init__`: indexes fields 0-2 directly (an `IndexError` when the
record is shorter) and guards only field 3. -/
def Trace_init (segment : Str) : Except String TraceSegmentRec :=
  match split_segment segment with
  | p0 :: p1 :: p2 :: rest =>
    Except.ok ⟨segment, p0, p1, p2, rest.head?⟩
  | _ => Except.error "IndexError"

/-- `src/edi_835_parser/segments/contact.py`, the attributes set by
`Contact.__init__`; the code-lookup coercions follow §4.2 of the spec. -/
structure ContactRec where
  segment : Str
  identifier : Str
  contact_function_code : String
  name : Option Str
  communication_number_qualifier : Option String
  communication_number : Option Str
  communication_number_qualifier_2 : Option String
  communication_number_2 : Option Str
deriving DecidableEq

/-- `Contact.__init__`: indexes fields 0-1 directly (an `IndexError` when
the record is shorter) and reads fields 2-6 through `get_element`. -/
def Contact_init (segment : Str) : Except String ContactRec :=
  match split_segment segment with
  | p0 :: p1 :: rest =>
    Except.ok
      ⟨segment, p0, ContactFunctionCode_lookup ⟨p1⟩,
        (match get_element (p0 :: p1 :: rest) 2 with
         | some v => if v = [] then none else some v
         | none => none),
        (get_element (p0 :: p1 :: rest) 3).map (fun v => CommunicationQualifier_lookup ⟨v⟩),
        get_element (p0 :: p1 :: rest) 4,
        (get_element (p0 :: p1 :: rest) 5).map (fun v => CommunicationQualifier_lookup ⟨v⟩),
        get_element (p0 :: p1 :: rest) 6⟩
  | _ => Except.error "IndexError"

/-- C3 counterexample: `TRN*1` has fewer fields than the catalog expects,
yet `Trace.__init__` raises an `IndexError` instead of resolving the
missing fields to absent values; likewise `Contact.__init__` on `PER`. -/
theorem segment_shortfall_counterexample :
    Trace_init "TRN*1".toList = Except.error "IndexError" ∧
    Contact_init "PER".toList = Except.error "IndexError" := by
  constructor <;> rfl

/-- C3 amended: construction tolerates a shortfall only in the optional
trailing fields — `Trace` requires fields 0-2 and treats field 3 as
optional, `Contact` requires fields 0-1 and treats fields 2-6 as optional;
those trailing fields resolve to an explicit absent value, while a record
missing a required field raises an `IndexError`. -/
theorem segment_shortfall_amended (s : Str) :
    (3 ≤ (split_segment s).length →
      ∃ t, Trace_init s = Except.ok t ∧
        t.entity_identifier = (split_segment s).get? 3) ∧
    ((split_segment s).length < 3 → Trace_init s = Except.error "IndexError") ∧
    (2 ≤ (split_segment s).length →
      ∃ c, Contact_init s = Except.ok c ∧
        c.communication_number_qualifier
          = ((split_segment s).get? 3).map (fun v => CommunicationQualifier_lookup ⟨v⟩) ∧
        c.communication_number = (split_segment s).get? 4 ∧
        c.communication_number_qualifier_2
          = ((split_segment s).get? 5).map (fun v => CommunicationQualifier_lookup ⟨v⟩) ∧
        c.communication_number_2 = (split_segment s).get? 6) ∧
    ((split_segment s).length < 2 → Contact_init s = Except.error "IndexError") := by
  refine ⟨?_, ?_, ?_, ?_⟩
  · intro hlen
    match hsp : split_segment s with
    | p0 :: p1 :: p2 :: rest =>
      refine ⟨⟨s, p0, p1, p2, rest.head?⟩, ?_, ?_⟩
      · unfold Trace_init
        rw [hsp]
      · cases rest <;> rfl
    | [] => rw [hsp] at hlen; simp at hlen
    | [p0] => rw [hsp] at hlen; simp at hlen
    | [p0, p1] => rw [hsp] at hlen; simp at hlen
  · intro hlen
    match hsp : split_segment s with
    | p0 :: p1 :: p2 :: rest => rw [hsp] at hlen; simp at hlen; omega
    | [] => unfold Trace_init; rw [hsp]
    | [p0] => unfold Trace_init; rw [hsp]
    | [p0, p1] => unfold Trace_init; rw [hsp]
  · intro hlen
    match hsp : split_segment s with
    | p0 :: p1 :: rest =>
      have he : Contact_init s = Except.ok
          ⟨s, p0, ContactFunctionCode_lookup ⟨p1⟩,
            (match get_element (p0 :: p1 :: rest) 2 with
             | some v => if v = [] then none else some v
             | none => none),
            (get_element (p0 :: p1 :: rest) 3).map
              (fun v => CommunicationQualifier_lookup ⟨v⟩),
            get_element (p0 :: p1 :: rest) 4,
            (get_element (p0 :: p1 :: rest) 5).map
              (fun v => CommunicationQualifier_lookup ⟨v⟩),
            get_element (p0 :: p1 :: rest) 6⟩ := by
        unfold Contact_init
        rw [hsp]
      exact ⟨_, he, rfl, rfl, rfl, rfl⟩
    | [] => rw [hsp] at hlen; simp at hlen
    | [p0] => rw [hsp] at hlen; simp at hlen
  · intro hlen
    match hsp : split_segment s with
    | p0 :: p1 :: rest => rw [hsp] at hlen; simp at hlen; omega
    | [] => unfold Contact_init; rw [hsp]
    | [p0] => unfold Contact_init; rw [hsp]

/-- Witness for the amended C3 at concrete short records. -/
theorem segment_shortfall_amended_witness :
    (∃ t, Trace_init "TRN*1*2".toList = Except.ok t ∧
      t.entity_identifier = (split_segment "TRN*1*2".toList).get? 3) ∧
    Trace_init "TRN*1".toList = Except.error "IndexError" ∧
    (∃ c, Contact_init "PER*BL".toList = Except.ok c ∧
      c.communication_number_qualifier
        = ((split_segment "PER*BL".toList).get? 3).map
            (fun v => CommunicationQualifier_lookup ⟨v⟩) ∧
      c.communication_number = (split_segment "PER*BL".toList).get? 4 ∧
      c.communication_number_qualifier_2
        = ((split_segment "PER*BL".toList).get? 5).map
            (fun v => CommunicationQualifier_lookup ⟨v⟩) ∧
      c.communication_number_2 = (split_segment "PER*BL".toList).get? 6) ∧
    Contact_init "PER".toList = Except.error "IndexError" := by
  refine ⟨(segment_shortfall_amended "TRN*1*2".toList).1 (by decide),
    (segment_shortfall_amended "TRN*1".toList).2.1 (by decide),
    (segment_shortfall_amended "PER*BL".toList).2.2.1 (by decide),
    (segment_shortfall_amended "PER".toList).2.2.2 (by decide)⟩

/-- Modelled from the spec: `find_identifier` (in `segments/utilities.py`,
outside `src/`) classifies a record by its leading tag. -/
def find_identifier (segment : Str) : Str :=
  (split_segment segment).headD []

/-- Modelled from the spec: the Interchange scalar (its class is outside
`src/`), kept as the record's raw fields. -/
structure InterchangeSeg where
  parts : List Str
deriving DecidableEq

/-- Modelled from the spec: the FinancialInformation scalar (its class is
outside `src/`), kept as the record's raw fields. -/
structure FinancialInformationSeg where
  parts : List Str
deriving DecidableEq

/-- Modelled from the spec: the fixed mapping from the entity-identifier
code of an organization header to its semantic type; a code outside the
closed enumeration leaves the loop constructed but unresolved. -/
def organization_type (code : Str) : String :=
  if code = "PR".toList then "payer"
  else if code = "PE".toList then "payee"
  else "unresolved"

/-- Modelled from the spec: an OrganizationLoop — header record plus its
optional address/location/contact records, with the resolved type. -/
structure OrganizationLoopB where
  n1_parts : List Str
  attached : List (List Str)
  org_type : String
deriving DecidableEq

/-- The tags an OrganizationLoop owns directly (address, location,
contact); any other tag terminates the loop. -/
def orgOwnedTag (s : Str) : Bool :=
  find_identifier s == "N3".toList || find_identifier s == "N4".toList ||
    find_identifier s == "PER".toList

/-- Modelled from the spec: `OrganizationLoop.build` — consume the header
and the directly-owned records that follow; the terminating record is left
for the caller. -/
def OrganizationLoopB.build (header : Str) (owned : List Str) : OrganizationLoopB :=
  ⟨split_segment header, owned.map split_segment,
    organization_type ((split_segment header).getD 1 [])⟩

/-- Modelled from the spec: a ServiceLoop — header record plus the
adjustment/reference/remark/date records scoped to it. -/
structure ServiceLoopB where
  svc_parts : List Str
  attached : List (List Str)
deriving DecidableEq

/-- Modelled from the spec: a ClaimLoop — header record, the records
attached at claim level, and the owned service loops. -/
structure ClaimLoopB where
  clp_parts : List Str
  claim_attached : List (List Str)
  services : List ServiceLoopB
deriving DecidableEq

/-- The tags a ClaimLoop's span covers: its directly-owned records, the
service-initiating tag, and the service-owned remark tag; any other tag
terminates the claim loop. -/
def claimOwnedTag (s : Str) : Bool :=
  find_identifier s == "CAS".toList || find_identifier s == "NM1".toList ||
    find_identifier s == "DTM".toList || find_identifier s == "AMT".toList ||
    find_identifier s == "REF".toList || find_identifier s == "SVC".toList ||
    find_identifier s == "LQ".toList

/-- Append a record to the innermost (last) open service loop. -/
def appendToLastService (l : List ServiceLoopB) (r : List Str) : List ServiceLoopB :=
  match l with
  | [] => []
  | [x] => [⟨x.svc_parts, x.attached ++ [r]⟩]
  | x :: xs => x :: appendToLastService xs r

/-- Modelled from the spec: the cross-level routing inside a claim span —
a service-initiating record opens a new service loop; every other record
attaches to the innermost open context (the last service if one is open,
else the claim). -/
def routeClaimSpan (span : List Str) : List (List Str) × List ServiceLoopB :=
  span.foldl
    (fun acc s =>
      if find_identifier s == "SVC".toList then
        (acc.1, acc.2 ++ [⟨split_segment s, []⟩])
      else
        match acc.2 with
        | [] => (acc.1 ++ [split_segment s], acc.2)
        | _ => (acc.1, appendToLastService acc.2 (split_segment s)))
    ([], [])

/-- Modelled from the spec: `ClaimLoop.build` — consume the header and the
claim span, routing each record to the innermost open context. -/
def ClaimLoopB.build (header : Str) (span : List Str) : ClaimLoopB :=
  let routed := routeClaimSpan span
  ⟨split_segment header, routed.1, routed.2⟩

/-- `TransactionSet.__init__`: the five attributes collected by `build`
(the file path is not modelled; the embedding works on content). -/
structure TransactionSetB where
  interchange : Option InterchangeSeg
  financial_information : Option FinancialInformationSeg
  trace : Option TraceSegmentRec
  claims : List ClaimLoopB
  organizations : List OrganizationLoopB
deriving DecidableEq

/-- The loop context open at the cursor during `TransactionSet.build`:
none, an organization loop being collected, or a claim loop being
collected. -/
inductive OpenCtx
  | none_
  | org (o : OrganizationLoopB)
  | claim (c : ClaimLoopB)
deriving DecidableEq

/-- The state threaded through `TransactionSet.build`'s `while True` loop:
the document collected so far, the currently open loop, and the pending
exception, if any (a raised exception aborts the build). -/
structure BuildState where
  ts : TransactionSetB
  ctx : OpenCtx
  err : Option String
deriving DecidableEq

/-- Closing the open loop: the finished organization or claim is appended
to its collection, in source order. -/
def closeCtx (st : BuildState) : BuildState :=
  match st.ctx with
  | OpenCtx.none_ => st
  | OpenCtx.org o =>
    ⟨{ st.ts with organizations := st.ts.organizations ++ [o] }, OpenCtx.none_, st.err⟩
  | OpenCtx.claim c =>
    ⟨{ st.ts with claims := st.ts.claims ++ [c] }, OpenCtx.none_, st.err⟩

/-- Routing one record inside an open claim loop (spec §4.3): a
service-initiating record opens a new service; any other owned record
attaches to the innermost open context — the last open service if any,
else the claim itself. -/
def claimAttach (c : ClaimLoopB) (seg : Str) : ClaimLoopB :=
  if find_identifier seg == "SVC".toList then
    ⟨c.clp_parts, c.claim_attached, c.services ++ [⟨split_segment seg, []⟩]⟩
  else
    match c.services with
    | [] => ⟨c.clp_parts, c.claim_attached ++ [split_segment seg], c.services⟩
    | _ => ⟨c.clp_parts, c.claim_attached, appendToLastService c.services (split_segment seg)⟩

/-- `TransactionSet.build_attribute` dispatch (lines 577-608) with no open
loop: recognize a scalar record, open an organization or claim loop, or
skip the record. -/
def dispatchSegment (st : BuildState) (seg : Str) : BuildState :=
  let identifier := find_identifier seg
  if identifier = "ISA".toList then
    ⟨{ st.ts with interchange := some ⟨split_segment seg⟩ }, st.ctx, st.err⟩
  else if identifier = "BPR".toList then
    ⟨{ st.ts with financial_information := some ⟨split_segment seg⟩ }, st.ctx, st.err⟩
  else if identifier = "TRN".toList then
    match Trace_init seg with
    | Except.ok t => ⟨{ st.ts with trace := some t }, st.ctx, st.err⟩
    | Except.error e => ⟨st.ts, st.ctx, some e⟩
  else if identifier = "N1".toList then
    ⟨st.ts,
      OpenCtx.org ⟨split_segment seg, [], organization_type ((split_segment seg).getD 1 [])⟩,
      st.err⟩
  else if identifier = "CLP".toList then
    ⟨st.ts, OpenCtx.claim ⟨split_segment seg, [], []⟩, st.err⟩
  else
    st

/-- One step of `TransactionSet.build`'s loop: a record owned by the open
loop is attached to it; otherwise the open loop is closed (the implicit
terminator rule, with the terminating record handled by the caller) and
the record is dispatched at the top level. After an exception the
remaining records are irrelevant. -/
def buildStep (st : BuildState) (seg : Str) : BuildState :=
  if st.err.isSome then st
  else
    match st.ctx with
    | OpenCtx.org o =>
      if orgOwnedTag seg then
        ⟨st.ts, OpenCtx.org ⟨o.n1_parts, o.attached ++ [split_segment seg], o.org_type⟩, st.err⟩
      else
        dispatchSegment (closeCtx st) seg
    | OpenCtx.claim c =>
      if claimOwnedTag seg then
        ⟨st.ts, OpenCtx.claim (claimAttach c seg), st.err⟩
      else
        dispatchSegment (closeCtx st) seg
    | OpenCtx.none_ => dispatchSegment st seg

lemma Trace_init_ok_of_len (s : Str) (h : 3 ≤ (split_segment s).length) :
    ∃ t, Trace_init s = Except.ok t := by
  match hsp : split_segment s with
  | p0 :: p1 :: p2 :: rest =>
    refine ⟨⟨s, p0, p1, p2, rest.head?⟩, ?_⟩
    unfold Trace_init
    rw [hsp]
  | [] => rw [hsp] at h; simp at h
  | [p0] => rw [hsp] at h; simp at h
  | [p0, p1] => rw [hsp] at h; simp at h

/-- `TransactionSet.build`'s return (line 575), or the exception that
aborted the loop. -/
def finishBuild (st : BuildState) : Except String TransactionSetB :=
  match st.err with
  | some e => Except.error e
  | none => Except.ok (closeCtx st).ts

/-- `TransactionSet.build` (lines 534-575): split the file content on `~`,
strip each record, fold the loop over the stream (closing a still-open
loop at end of stream), and return the document — or the exception raised
while parsing a record. -/
def TransactionSet_build (content : Str) : Except String TransactionSetB :=
  finishBuild (((splitOnChar '~' content).map pyStrip).foldl buildStep
    ⟨⟨none, none, none, [], []⟩, OpenCtx.none_, none⟩)

lemma closeCtx_err (st : BuildState) : (closeCtx st).err = st.err := by
  cases hctx : st.ctx <;> simp [closeCtx, hctx]

lemma finishBuild_ok (st : BuildState) (h : st.err = none) :
    finishBuild st = Except.ok (closeCtx st).ts := by
  unfold finishBuild
  rw [h]

lemma dispatchSegment_err (st : BuildState) (seg : Str)
    (h : find_identifier seg = "TRN".toList → 3 ≤ (split_segment seg).length) :
    (dispatchSegment st seg).err = st.err := by
  have h' : find_identifier seg = ['T', 'R', 'N'] → 3 ≤ (split_segment seg).length := h
  unfold dispatchSegment
  by_cases h1 : find_identifier seg = ['I', 'S', 'A']
  · simp [h1]
  by_cases h2 : find_identifier seg = ['B', 'P', 'R']
  · simp [h1, h2]
  by_cases h3 : find_identifier seg = ['T', 'R', 'N']
  · obtain ⟨t, ht⟩ := Trace_init_ok_of_len seg (h' h3)
    simp [h1, h2, h3, ht]
  by_cases h4 : find_identifier seg = ['N', '1']
  · simp [h1, h2, h3, h4]
  by_cases h5 : find_identifier seg = ['C', 'L', 'P']
  · simp [h1, h2, h3, h4, h5]
  · simp [h1, h2, h3, h4, h5]

lemma dispatchSegment_skip (st : BuildState) (seg : Str)
    (h1 : find_identifier seg ≠ "ISA".toList) (h2 : find_identifier seg ≠ "BPR".toList)
    (h3 : find_identifier seg ≠ "TRN".toList) (h4 : find_identifier seg ≠ "N1".toList)
    (h5 : find_identifier seg ≠ "CLP".toList) :
    dispatchSegment st seg = st := by
  have g1 : find_identifier seg ≠ ['I', 'S', 'A'] := h1
  have g2 : find_identifier seg ≠ ['B', 'P', 'R'] := h2
  have g3 : find_identifier seg ≠ ['T', 'R', 'N'] := h3
  have g4 : find_identifier seg ≠ ['N', '1'] := h4
  have g5 : find_identifier seg ≠ ['C', 'L', 'P'] := h5
  unfold dispatchSegment
  simp [g1, g2, g3, g4, g5]

lemma buildStep_err (st : BuildState) (seg : Str)
    (h : find_identifier seg = "TRN".toList → 3 ≤ (split_segment seg).length) :
    (buildStep st seg).err = st.err := by
  unfold buildStep
  by_cases he : st.err.isSome
  · simp [he]
  · cases hctx : st.ctx with
    | none_ =>
      simp only [he, hctx, Bool.false_eq_true, if_false]
      exact dispatchSegment_err st seg h
    | org o =>
      simp only [he, hctx, Bool.false_eq_true, if_false]
      by_cases ho : orgOwnedTag seg
      · simp [ho]
      · simp only [ho, Bool.false_eq_true, if_false]
        rw [dispatchSegment_err _ seg h, closeCtx_err]
    | claim c =>
      simp only [he, hctx, Bool.false_eq_true, if_false]
      by_cases hc : claimOwnedTag seg
      · simp [hc]
      · simp only [hc, Bool.false_eq_true, if_false]
        rw [dispatchSegment_err _ seg h, closeCtx_err]

lemma buildStep_skip (st : BuildState) (seg : Str)
    (hst : st.err = none) (hctx : st.ctx = OpenCtx.none_)
    (h1 : find_identifier seg ≠ "ISA".toList) (h2 : find_identifier seg ≠ "BPR".toList)
    (h3 : find_identifier seg ≠ "TRN".toList) (h4 : find_identifier seg ≠ "N1".toList)
    (h5 : find_identifier seg ≠ "CLP".toList) :
    buildStep st seg = st := by
  unfold buildStep
  rw [hst, hctx]
  simp only [Option.isSome_none, Bool.false_eq_true, if_false]
  exact dispatchSegment_skip st seg h1 h2 h3 h4 h5

lemma foldl_buildStep_err (segs : List Str) :
    ∀ st : BuildState, st.err = none →
      (∀ s ∈ segs, find_identifier s = "TRN".toList → 3 ≤ (split_segment s).length) →
      (segs.foldl buildStep st).err = none := by
  induction segs with
  | nil => intro st hst _; simpa using hst
  | cons seg rest ih =>
    intro st hst hall
    simp only [List.foldl_cons]
    refine ih (buildStep st seg) ?_ (fun s hs => hall s (List.mem_cons_of_mem seg hs))
    rw [buildStep_err st seg (hall seg (List.mem_cons_self seg rest))]
    exact hst

/-- C2 counterexample: an input whose first (and only) meaningful records
are unrecognized builds successfully into a partial document with absent
Interchange and FinancialInformation scalars — no structural error is
raised. -/
theorem build_missing_scalars_counterexample :
    TransactionSet_build "FOO*1~BAR*2".toList
      = Except.ok ⟨none, none, none, [], []⟩ := by
  rfl

/-- C2 amended: `TransactionSet.build` never signals a structural error —
unrecognized records (including a first record that is not the
interchange-opening tag) are skipped unchanged, an absent Interchange or
FinancialInformation scalar merely leaves the corresponding field absent,
and the build returns a (possibly partial) document whenever no record
construction raises (only a `TRN` record shorter than three fields can). -/
theorem build_returns_partial_document :
    (∀ (segs : List Str) (st : BuildState), st.err = none → st.ctx = OpenCtx.none_ →
      (∀ s ∈ segs, find_identifier s ≠ "ISA".toList ∧ find_identifier s ≠ "BPR".toList ∧
        find_identifier s ≠ "TRN".toList ∧ find_identifier s ≠ "N1".toList ∧
        find_identifier s ≠ "CLP".toList) →
      segs.foldl buildStep st = st) ∧
    (∀ content : Str,
      (∀ s ∈ (splitOnChar '~' content).map pyStrip,
        find_identifier s = "TRN".toList → 3 ≤ (split_segment s).length) →
      ∃ ts, TransactionSet_build content = Except.ok ts) := by
  constructor
  · intro segs
    induction segs with
    | nil => intro st _ _ _; rfl
    | cons seg rest ih =>
      intro st hst hctx hall
      obtain ⟨h1, h2, h3, h4, h5⟩ := hall seg (List.mem_cons_self seg rest)
      simp only [List.foldl_cons, buildStep_skip st seg hst hctx h1 h2 h3 h4 h5]
      exact ih st hst hctx (fun s hs => hall s (List.mem_cons_of_mem seg hs))
  · intro content hall
    have herr := foldl_buildStep_err ((splitOnChar '~' content).map pyStrip)
      ⟨⟨none, none, none, [], []⟩, OpenCtx.none_, none⟩ rfl hall
    exact ⟨_, by unfold TransactionSet_build; exact finishBuild_ok _ herr⟩

/-- Witness for the amended C2 at a concrete input with no recognized
records. -/
theorem build_returns_partial_document_witness :
    ["FOO*1".toList, "BAR*2".toList].foldl buildStep
        ⟨⟨none, none, none, [], []⟩, OpenCtx.none_, none⟩
      = ⟨⟨none, none, none, [], []⟩, OpenCtx.none_, none⟩ ∧
    (∃ ts, TransactionSet_build "FOO*1~BAR*2".toList = Except.ok ts) := by
  constructor
  · exact build_returns_partial_document.1 _ _ rfl rfl (by decide)
  · exact build_returns_partial_document.2 "FOO*1~BAR*2".toList (by decide)

/-- `TransactionSet.payer` (lines 39-43): filter the organizations whose
type resolves to `payer`, assert exactly one, return it; the failed
assertion is an error raised at access time. -/
def payer_accessor (ts : TransactionSetB) : Except String OrganizationLoopB :=
  match ts.organizations.filter (fun o => o.org_type == "payer") with
  | [o] => Except.ok o
  | _ => Except.error "AssertionError"

/-- `TransactionSet.payee` (lines 45-49): the same for `payee`. -/
def payee_accessor (ts : TransactionSetB) : Except String OrganizationLoopB :=
  match ts.organizations.filter (fun o => o.org_type == "payee") with
  | [o] => Except.ok o
  | _ => Except.error "AssertionError"

lemma singleton_filter_accessor (l : List OrganizationLoopB) (t : String) :
    ((∃ o, (match l.filter (fun o => o.org_type == t) with
            | [o] => Except.ok o
            | _ => (Except.error "AssertionError" : Except String OrganizationLoopB))
        = Except.ok o) ↔ (l.filter (fun o => o.org_type == t)).length = 1) ∧
    (∀ o, (match l.filter (fun o => o.org_type == t) with
           | [o] => Except.ok o
           | _ => (Except.error "AssertionError" : Except String OrganizationLoopB))
        = Except.ok o → l.filter (fun o => o.org_type == t) = [o]) := by
  cases hf : l.filter (fun o => o.org_type == t) with
  | nil => simp
  | cons a rest =>
    cases rest with
    | nil => simp
    | cons b rest2 => simp

/-- C5: the payer (resp. payee) accessor succeeds and returns the unique
organization of that type exactly when exactly one organization resolves
to it, erring otherwise — and the error arises only at access time: a
document with two payer organizations still builds successfully. -/
theorem payer_payee_accessor_singleton :
    (∀ ts : TransactionSetB,
      ((∃ o, payer_accessor ts = Except.ok o) ↔
        (ts.organizations.filter (fun o => o.org_type == "payer")).length = 1) ∧
      (∀ o, payer_accessor ts = Except.ok o →
        ts.organizations.filter (fun o => o.org_type == "payer") = [o]) ∧
      ((∃ o, payee_accessor ts = Except.ok o) ↔
        (ts.organizations.filter (fun o => o.org_type == "payee")).length = 1) ∧
      (∀ o, payee_accessor ts = Except.ok o →
        ts.organizations.filter (fun o => o.org_type == "payee") = [o])) ∧
    (∃ ts, TransactionSet_build "N1*PR*ACME~N1*PR*OTHER".toList = Except.ok ts ∧
      ts.organizations.length = 2 ∧
      payer_accessor ts = Except.error "AssertionError" ∧
      payee_accessor ts = Except.error "AssertionError") := by
  constructor
  · intro ts
    obtain ⟨i1, i2⟩ := singleton_filter_accessor ts.organizations "payer"
    obtain ⟨j1, j2⟩ := singleton_filter_accessor ts.organizations "payee"
    exact ⟨i1, i2, j1, j2⟩
  · exact ⟨_, rfl, rfl, rfl, rfl⟩

/-- Witness for C5 at a concrete document with one payer and one payee. -/
theorem payer_payee_accessor_singleton_witness :
    (∃ o, payer_accessor
        ⟨none, none, none, [],
          [⟨["N1".toList, "PR".toList], [], "payer"⟩,
           ⟨["N1".toList, "PE".toList], [], "payee"⟩]⟩
      = Except.ok o) ∧
    payer_accessor
        ⟨none, none, none, [],
          [⟨["N1".toList, "PR".toList], [], "payer"⟩,
           ⟨["N1".toList, "PE".toList], [], "payee"⟩]⟩
      = Except.ok ⟨["N1".toList, "PR".toList], [], "payer"⟩ := by
  constructor
  · exact ((payer_payee_accessor_singleton.1 _).1).2 (by decide)
  · rfl

/-- A converted record as produced by the `_convert_*_segment` helpers of
`TransactionSet.to_json`: a mapping from field name to raw value. -/
abbrev ConvRec := List (String × Str)

/-- The shape shared by every `_convert_*_segment` helper: the field at
position `i + 1` under the `i`-th name, an empty string when the record
has fewer fields (`parts[i] if len(parts) > i else ""`). -/
def convertSegment (names : List String) (parts : List Str) : ConvRec :=
  (List.range names.length).map (fun i => (names.getD i "", parts.getD (i + 1) []))

/-- Field names of `_convert_isa_segment`. -/
def isaFields : List String :=
  ["authorization_information_qualifier", "authorization_information",
   "security_information_qualifier", "security_information",
   "interchange_sender_id_qualifier", "interchange_sender_id",
   "interchange_receiver_id_qualifier", "interchange_receiver_id",
   "interchange_date", "interchange_time",
   "interchange_control_standards_identifier", "interchange_control_version_number",
   "interchange_control_number", "acknowledgement_requested",
   "usage_indicator", "component_element_separator"]

/-- Field names of `_convert_gs_segment`. -/
def gsFields : List String :=
  ["functional_identifier_code", "application_sender_code",
   "application_receiver_id", "date", "time", "group_control_number",
   "responsible_agency_code", "version_release_industry_identifier"]

/-- Field names of `_convert_st_segment`. -/
def stFields : List String :=
  ["transaction_set_identifier_code", "transaction_set_control_number"]

/-- Field names of `_convert_bpr_segment`. -/
def bprFields : List String :=
  ["transaction_handling_code", "monetary_amount", "credit_debit_flag",
   "payment_method_code", "payment_format_code", "dfi_id_number_qualifier",
   "dfi_identification_number", "account_number_qualifier",
   "sender_bank_account_number", "originating_company_identifier",
   "originating_company_supplemental_code", "dfi_identification_number_qualifier",
   "receiver_or_provider_bank_id_number", "account_number_qualifier_2",
   "receiver_or_provider_account_number", "check_issue_or_eft_effective_date"]

/-- Field names of `_convert_trn_segment`. -/
def trnFields : List String :=
  ["trace_type_code", "reference_identification",
   "originating_company_identifier", "originating_company_supplemental_code"]

/-- Field names of `_convert_dtm_segment`. -/
def dtmFields : List String :=
  ["date_time_qualifier", "date", "time", "time_code",
   "date_time_period_format", "date_time_period"]

/-- Field names of `_convert_n1_segment`. -/
def n1Fields : List String :=
  ["entity_identifier_code", "name", "identification_code_qualifier",
   "identification_code"]

/-- Field names of `_convert_n3_segment`. -/
def n3Fields : List String :=
  ["address_line_1", "address_line_2"]

/-- Field names of `_convert_n4_segment`. -/
def n4Fields : List String :=
  ["city_name", "state_code", "postal_code", "country_code",
   "location_qualifier", "location_identifier"]

/-- Field names of `_convert_per_segment`. -/
def perFields : List String :=
  ["contact_function_code", "contact_name",
   "communication_number_qualifier_1", "communication_number_1",
   "communication_number_qualifier_2", "communication_number_2",
   "communication_number_qualifier_3", "communication_number_3",
   "contact_inquiry_reference"]

/-- Field names of `_convert_ref_segment`. -/
def refFields : List String :=
  ["reference_identification_qualifier", "reference_identification",
   "description", "reference_identifier"]

/-- Field names of `_convert_clp_segment`. -/
def clpFields : List String :=
  ["patient_control_number", "claim_status_code", "total_claim_charge_amount",
   "total_claim_payment_amount", "patient_responsibility_amount",
   "claim_filing_indicator_code", "payer_claim_control_number",
   "facility_type_code", "claim_frequency_code", "patient_status_code",
   "diagnosis_related_group_code", "drg_weight", "discharge_fraction"]

/-- Field names of `_convert_cas_segment`. -/
def casFields : List String :=
  ["claim_adjustment_group_code", "adjustment_reason_code",
   "adjustment_amount", "adjustment_quantity",
   "adjustment_reason_code_2", "adjustment_amount_2", "adjustment_quantity_2",
   "adjustment_reason_code_3", "adjustment_amount_3", "adjustment_quantity_3",
   "adjustment_reason_code_4", "adjustment_amount_4", "adjustment_quantity_4",
   "adjustment_reason_code_5", "adjustment_amount_5", "adjustment_quantity_5",
   "adjustment_reason_code_6", "adjustment_amount_6", "adjustment_quantity_6"]

/-- Field names of `_convert_nm1_segment`. -/
def nm1Fields : List String :=
  ["entity_identifier_code", "entity_type_qualifier", "last_name",
   "first_name", "middle_name", "name_prefix", "name_suffix",
   "identification_code_qualifier", "identification_code",
   "entity_relationship_code", "entity_identifier_code_2",
   "identification_code_qualifier_2"]

/-- Field names of `_convert_amt_segment`. -/
def amtFields : List String :=
  ["amount_qualifier_code", "monetary_amount", "credit_debit_flag_code"]

/-- Field names of `_convert_svc_segment`. -/
def svcFields : List String :=
  ["service_type_code", "charge_amount", "payment_amount", "revenue_code",
   "units_of_service_paid", "original_units_of_service", "adjudicated_date"]

/-- Field names of `_convert_plb_segment`. -/
def plbFields : List String :=
  ["provider_identifier", "fiscal_period_date",
   "provider_adjustment_identifier", "provider_adjustment_amount",
   "provider_adjustment_identifier_2", "provider_adjustment_amount_2"]

/-- Field names of `_convert_se_segment`. -/
def seFields : List String :=
  ["number_of_included_segments", "transaction_set_control_number"]

/-- Field names of `_convert_ge_segment`. -/
def geFields : List String :=
  ["number_of_transaction_sets_included", "group_control_number"]

/-- Field names of `_convert_iea_segment`. -/
def ieaFields : List String :=
  ["number_of_included_functional_groups", "interchange_control_number"]

/-- The service-loop dict of `to_json`: created with only the `SVC` key
(line 252-254); the `DTM`/`CAS`/`REF`/`AMT` keys are added lazily on the
first matching record, so an absent key is `none`. -/
structure SvcObj where
  svc : ConvRec
  dtm : Option (List ConvRec) := none
  cas : Option (List ConvRec) := none
  ref : Option (List ConvRec) := none
  amt : Option (List ConvRec) := none
deriving DecidableEq

/-- The claim-loop dict of `to_json` (lines 224-232): every child
collection pre-initialized empty; services are stored by object id. -/
structure ClpObj where
  clp : ConvRec
  cas : List ConvRec := []
  nm1 : List ConvRec := []
  dtm : List ConvRec := []
  amt : List ConvRec := []
  ref : List ConvRec := []
  svcLoop : List Nat := []
deriving DecidableEq

/-- The organization-loop dict of `to_json` (lines 197-202). -/
structure N1Obj where
  n1 : ConvRec
  n3 : Option ConvRec := none
  n4 : Option ConvRec := none
  per : Option ConvRec := none
deriving DecidableEq

/-- The transaction dict of `to_json` (lines 173-182): child collections
pre-initialized empty; loops stored by object id. -/
structure TxnObj where
  stRec : ConvRec
  bpr : Option ConvRec := none
  trn : Option ConvRec := none
  dtm : List ConvRec := []
  n1Loop : List Nat := []
  clpLoop : List Nat := []
  plb : List ConvRec := []
  se : Option ConvRec := none
deriving DecidableEq

/-- The mutable state of `to_json`'s segment loop: the dict objects built
so far, addressed by id so that the `current_*` variables alias the same
objects that already sit inside their parent collections, exactly as the
Python dicts do. -/
structure JsonState where
  isa : Option ConvRec := none
  gs : Option ConvRec := none
  ge : Option ConvRec := none
  iea : Option ConvRec := none
  txns : List (Nat × TxnObj) := []
  n1s : List (Nat × N1Obj) := []
  clps : List (Nat × ClpObj) := []
  svcs : List (Nat × SvcObj) := []
  curTxn : Option Nat := none
  curN1 : Option Nat := none
  curClp : Option Nat := none
  curSvc : Option Nat := none
  nextId : Nat := 0
deriving DecidableEq

/-- In-place mutation of the object with the given id. -/
def updAssoc {α : Type} (l : List (Nat × α)) (i : Nat) (f : α → α) : List (Nat × α) :=
  l.map (fun p => if p.1 = i then (p.1, f p.2) else p)

/-- Object lookup by id. -/
def lookupId {α : Type} (l : List (Nat × α)) (i : Nat) : Option α :=
  (l.find? (fun p => p.1 = i)).map (fun p => p.2)

/-- One iteration of the `for segment in segments` loop of
`TransactionSet.to_json` (lines 161-267): the `elif` chain keyed on the
leading tag, with each branch's `current_*` guards. -/
def processSegment (st : JsonState) (seg : Str) : JsonState :=
  if (split_segment seg).headD [] = "ISA".toList then
    { st with isa := some (convertSegment isaFields (split_segment seg)) }
  else if (split_segment seg).headD [] = "GS".toList then
    { st with gs := some (convertSegment gsFields (split_segment seg)) }
  else if (split_segment seg).headD [] = "ST".toList then
    { st with
        txns := st.txns ++ [(st.nextId, { stRec := convertSegment stFields (split_segment seg) })],
        curTxn := some st.nextId,
        nextId := st.nextId + 1 }
  else if (split_segment seg).headD [] = "BPR".toList then
    match st.curTxn with
    | some i =>
      { st with txns := updAssoc st.txns i (fun t => { t with bpr := some (convertSegment bprFields (split_segment seg)) }) }
    | none => st
  else if (split_segment seg).headD [] = "TRN".toList then
    match st.curTxn with
    | some i =>
      { st with txns := updAssoc st.txns i (fun t => { t with trn := some (convertSegment trnFields (split_segment seg)) }) }
    | none => st
  else if (split_segment seg).headD [] = "DTM".toList then
    match st.curTxn with
    | none => st
    | some i =>
      match st.curSvc with
      | some j =>
        { st with svcs := updAssoc st.svcs j (fun v => { v with dtm := some (v.dtm.getD [] ++ [convertSegment dtmFields (split_segment seg)]) }) }
      | none =>
        { st with txns := updAssoc st.txns i (fun t => { t with dtm := t.dtm ++ [convertSegment dtmFields (split_segment seg)] }) }
  else if (split_segment seg).headD [] = "N1".toList then
    match st.curTxn with
    | none => st
    | some i =>
      { st with
          n1s := st.n1s ++ [(st.nextId, { n1 := convertSegment n1Fields (split_segment seg) })],
          txns := updAssoc st.txns i (fun t => { t with n1Loop := t.n1Loop ++ [st.nextId] }),
          curN1 := some st.nextId,
          nextId := st.nextId + 1 }
  else if (split_segment seg).headD [] = "N3".toList then
    match st.curN1 with
    | some i =>
      { st with n1s := updAssoc st.n1s i (fun o => { o with n3 := some (convertSegment n3Fields (split_segment seg)) }) }
    | none => st
  else if (split_segment seg).headD [] = "N4".toList then
    match st.curN1 with
    | some i =>
      { st with n1s := updAssoc st.n1s i (fun o => { o with n4 := some (convertSegment n4Fields (split_segment seg)) }) }
    | none => st
  else if (split_segment seg).headD [] = "PER".toList then
    match st.curN1 with
    | some i =>
      { st with n1s := updAssoc st.n1s i (fun o => { o with per := some (convertSegment perFields (split_segment seg)) }) }
    | none => st
  else if (split_segment seg).headD [] = "REF".toList then
    match st.curTxn with
    | none => st
    | some _ =>
      match st.curSvc with
      | some j =>
        { st with svcs := updAssoc st.svcs j (fun v => { v with ref := some (v.ref.getD [] ++ [convertSegment refFields (split_segment seg)]) }) }
      | none =>
        match st.curClp with
        | some k =>
          { st with clps := updAssoc st.clps k (fun c => { c with ref := c.ref ++ [convertSegment refFields (split_segment seg)] }) }
        | none => st
  else if (split_segment seg).headD [] = "LX".toList then
    st
  else if (split_segment seg).headD [] = "CLP".toList then
    match st.curTxn with
    | none => st
    | some i =>
      { st with
          clps := st.clps ++ [(st.nextId, { clp := convertSegment clpFields (split_segment seg) })],
          txns := updAssoc st.txns i (fun t => { t with clpLoop := t.clpLoop ++ [st.nextId] }),
          curClp := some st.nextId,
          curSvc := none,
          nextId := st.nextId + 1 }
  else if (split_segment seg).headD [] = "CAS".toList then
    match st.curClp with
    | none => st
    | some k =>
      match st.curSvc with
      | some j =>
        { st with svcs := updAssoc st.svcs j (fun v => { v with cas := some (v.cas.getD [] ++ [convertSegment casFields (split_segment seg)]) }) }
      | none =>
        { st with clps := updAssoc st.clps k (fun c => { c with cas := c.cas ++ [convertSegment casFields (split_segment seg)] }) }
  else if (split_segment seg).headD [] = "NM1".toList then
    match st.curClp with
    | some k =>
      { st with clps := updAssoc st.clps k (fun c => { c with nm1 := c.nm1 ++ [convertSegment nm1Fields (split_segment seg)] }) }
    | none => st
  else if (split_segment seg).headD [] = "AMT".toList then
    match st.curClp with
    | none => st
    | some k =>
      match st.curSvc with
      | some j =>
        { st with svcs := updAssoc st.svcs j (fun v => { v with amt := some (v.amt.getD [] ++ [convertSegment amtFields (split_segment seg)]) }) }
      | none =>
        { st with clps := updAssoc st.clps k (fun c => { c with amt := c.amt ++ [convertSegment amtFields (split_segment seg)] }) }
  else if (split_segment seg).headD [] = "SVC".toList then
    match st.curClp with
    | none => st
    | some k =>
      { st with
          svcs := st.svcs ++ [(st.nextId, { svc := convertSegment svcFields (split_segment seg) })],
          clps := updAssoc st.clps k (fun c => { c with svcLoop := c.svcLoop ++ [st.nextId] }),
          curSvc := some st.nextId,
          nextId := st.nextId + 1 }
  else if (split_segment seg).headD [] = "PLB".toList then
    match st.curTxn with
    | some i =>
      { st with txns := updAssoc st.txns i (fun t => { t with plb := t.plb ++ [convertSegment plbFields (split_segment seg)] }) }
    | none => st
  else if (split_segment seg).headD [] = "SE".toList then
    match st.curTxn with
    | none => st
    | some i =>
      { st with
          txns := updAssoc st.txns i (fun t => { t with se := some (convertSegment seFields (split_segment seg)) }),
          curTxn := none, curN1 := none, curClp := none, curSvc := none }
  else if (split_segment seg).headD [] = "GE".toList then
    { st with ge := some (convertSegment geFields (split_segment seg)) }
  else if (split_segment seg).headD [] = "IEA".toList then
    { st with iea := some (convertSegment ieaFields (split_segment seg)) }
  else
    st

/-- A service loop in the final JSON tree: the `SVC` record plus the
lazily-created collections (`none` = key omitted). -/
structure SvcLoopJson where
  svc : ConvRec
  dtm : Option (List ConvRec)
  cas : Option (List ConvRec)
  ref : Option (List ConvRec)
  amt : Option (List ConvRec)
deriving DecidableEq

/-- A claim loop in the final JSON tree. -/
structure ClpLoopJson where
  clp : ConvRec
  cas : List ConvRec
  nm1 : List ConvRec
  dtm : List ConvRec
  amt : List ConvRec
  ref : List ConvRec
  svcLoop : List SvcLoopJson
deriving DecidableEq

/-- An organization loop in the final JSON tree. -/
structure N1LoopJson where
  n1 : ConvRec
  n3 : Option ConvRec
  n4 : Option ConvRec
  per : Option ConvRec
deriving DecidableEq

/-- A transaction in the final JSON tree. -/
structure TxnJson where
  stRec : ConvRec
  bpr : Option ConvRec
  trn : Option ConvRec
  dtm : List ConvRec
  n1Loop : List N1LoopJson
  clpLoop : List ClpLoopJson
  plb : List ConvRec
  se : Option ConvRec
deriving DecidableEq

/-- The top-level `interchange` object of the final JSON tree. -/
structure InterchangeJson where
  isa : Option ConvRec
  gs : Option ConvRec
  transactions : List TxnJson
  ge : Option ConvRec
  iea : Option ConvRec
deriving DecidableEq

/-- Resolving a stored service loop to its JSON form. -/
def materializeSvc (st : JsonState) (j : Nat) : Option SvcLoopJson :=
  (lookupId st.svcs j).map (fun v => ⟨v.svc, v.dtm, v.cas, v.ref, v.amt⟩)

/-- Resolving a stored claim loop to its JSON form. -/
def materializeClp (st : JsonState) (k : Nat) : Option ClpLoopJson :=
  (lookupId st.clps k).map (fun c =>
    ⟨c.clp, c.cas, c.nm1, c.dtm, c.amt, c.ref, c.svcLoop.filterMap (materializeSvc st)⟩)

/-- Resolving a stored organization loop to its JSON form. -/
def materializeN1 (st : JsonState) (i : Nat) : Option N1LoopJson :=
  (lookupId st.n1s i).map (fun o => ⟨o.n1, o.n3, o.n4, o.per⟩)

/-- The object graph after `to_json`'s segment loop has consumed the whole
tokenized content, starting from the empty JSON skeleton (lines 146-159). -/
def toJsonState (content : Str) : JsonState :=
  (jsonRecords content).foldl processSegment {}

/-- `TransactionSet.to_json` (lines 125-269): tokenize the content, fold
the segment loop from the empty JSON skeleton, and read the resulting
object graph back as a tree. -/
def to_json (content : Str) : InterchangeJson :=
  ⟨(toJsonState content).isa, (toJsonState content).gs,
    (toJsonState content).txns.map (fun p =>
      ⟨p.2.stRec, p.2.bpr, p.2.trn, p.2.dtm,
        p.2.n1Loop.filterMap (materializeN1 (toJsonState content)),
        p.2.clpLoop.filterMap (materializeClp (toJsonState content)),
        p.2.plb, p.2.se⟩),
    (toJsonState content).ge, (toJsonState content).iea⟩

/-- C1 counterexample: in `ISA*x~ST*835*0001~CLP*A*1~DTM*232*20230101` a
`DTM` record arrives while a claim loop is open and no service loop is —
the claim, as stated, requires it to be appended to the claim's list, but
`to_json` appends it to the transaction-level list and the claim's `DTM`
list stays empty. -/
theorem to_json_dtm_routing_counterexample :
    ((to_json "ISA*x~ST*835*0001~CLP*A*1~DTM*232*20230101".toList).transactions.map
        (fun t => (t.dtm, t.clpLoop.map (fun c => c.dtm))))
      = [([convertSegment dtmFields (split_segment "DTM*232*20230101".toList)], [[]])] := by
  rfl

/-- C1 amended: the tag-ambiguous records route as follows. `CAS` and
`AMT` attach to the innermost of service/claim and are dropped when no
claim loop is open; `REF` attaches to the service, else the claim, and is
dropped at transaction level; `DTM` attaches to the service if one is
open and otherwise to the transaction-level list — never to the claim. -/
theorem to_json_innermost_routing (st : JsonState) (seg : Str) :
    (∀ i j, (split_segment seg).headD [] = "DTM".toList → st.curTxn = some i →
      st.curSvc = some j →
      processSegment st seg = { st with svcs := updAssoc st.svcs j (fun v =>
        { v with dtm := some (v.dtm.getD []
            ++ [convertSegment dtmFields (split_segment seg)]) }) }) ∧
    (∀ i, (split_segment seg).headD [] = "DTM".toList → st.curTxn = some i →
      st.curSvc = none →
      processSegment st seg = { st with txns := updAssoc st.txns i (fun t =>
        { t with dtm := t.dtm ++ [convertSegment dtmFields (split_segment seg)] }) }) ∧
    (∀ k j, (split_segment seg).headD [] = "CAS".toList → st.curClp = some k →
      st.curSvc = some j →
      processSegment st seg = { st with svcs := updAssoc st.svcs j (fun v =>
        { v with cas := some (v.cas.getD []
            ++ [convertSegment casFields (split_segment seg)]) }) }) ∧
    (∀ k, (split_segment seg).headD [] = "CAS".toList → st.curClp = some k →
      st.curSvc = none →
      processSegment st seg = { st with clps := updAssoc st.clps k (fun c =>
        { c with cas := c.cas ++ [convertSegment casFields (split_segment seg)] }) }) ∧
    ((split_segment seg).headD [] = "CAS".toList → st.curClp = none →
      processSegment st seg = st) ∧
    (∀ k j, (split_segment seg).headD [] = "AMT".toList → st.curClp = some k →
      st.curSvc = some j →
      processSegment st seg = { st with svcs := updAssoc st.svcs j (fun v =>
        { v with amt := some (v.amt.getD []
            ++ [convertSegment amtFields (split_segment seg)]) }) }) ∧
    (∀ k, (split_segment seg).headD [] = "AMT".toList → st.curClp = some k →
      st.curSvc = none →
      processSegment st seg = { st with clps := updAssoc st.clps k (fun c =>
        { c with amt := c.amt ++ [convertSegment amtFields (split_segment seg)] }) }) ∧
    ((split_segment seg).headD [] = "AMT".toList → st.curClp = none →
      processSegment st seg = st) ∧
    (∀ i j, (split_segment seg).headD [] = "REF".toList → st.curTxn = some i →
      st.curSvc = some j →
      processSegment st seg = { st with svcs := updAssoc st.svcs j (fun v =>
        { v with ref := some (v.ref.getD []
            ++ [convertSegment refFields (split_segment seg)]) }) }) ∧
    (∀ i k, (split_segment seg).headD [] = "REF".toList → st.curTxn = some i →
      st.curSvc = none → st.curClp = some k →
      processSegment st seg = { st with clps := updAssoc st.clps k (fun c =>
        { c with ref := c.ref ++ [convertSegment refFields (split_segment seg)] }) }) ∧
    (∀ i, (split_segment seg).headD [] = "REF".toList → st.curTxn = some i →
      st.curSvc = none → st.curClp = none →
      processSegment st seg = st) := by
  refine ⟨?_, ?_, ?_, ?_, ?_, ?_, ?_, ?_, ?_, ?_, ?_⟩
  · intro i j hh ht hs
    simp only [List.headD_eq_head?_getD] at hh
    unfold processSegment
    simp +decide [hh, ht, hs]
  · intro i hh ht hs
    simp only [List.headD_eq_head?_getD] at hh
    unfold processSegment
    simp +decide [hh, ht, hs]
  · intro k j hh hc hs
    simp only [List.headD_eq_head?_getD] at hh
    unfold processSegment
    simp +decide [hh, hc, hs]
  · intro k hh hc hs
    simp only [List.headD_eq_head?_getD] at hh
    unfold processSegment
    simp +decide [hh, hc, hs]
  · intro hh hc
    simp only [List.headD_eq_head?_getD] at hh
    unfold processSegment
    simp +decide [hh, hc]
  · intro k j hh hc hs
    simp only [List.headD_eq_head?_getD] at hh
    unfold processSegment
    simp +decide [hh, hc, hs]
  · intro k hh hc hs
    simp only [List.headD_eq_head?_getD] at hh
    unfold processSegment
    simp +decide [hh, hc, hs]
  · intro hh hc
    simp only [List.headD_eq_head?_getD] at hh
    unfold processSegment
    simp +decide [hh, hc]
  · intro i j hh ht hs
    simp only [List.headD_eq_head?_getD] at hh
    unfold processSegment
    simp +decide [hh, ht, hs]
  · intro i k hh ht hs hc
    simp only [List.headD_eq_head?_getD] at hh
    unfold processSegment
    simp +decide [hh, ht, hs, hc]
  · intro i hh ht hs hc
    simp only [List.headD_eq_head?_getD] at hh
    unfold processSegment
    simp +decide [hh, ht, hs, hc]

/-- A concrete `to_json` state with one open transaction (id 0) holding
one open claim loop (id 1) and no open service loop. -/
def routingWitnessState : JsonState :=
  ⟨none, none, none, none, [(0, ⟨[], none, none, [], [], [1], [], none⟩)], [],
   [(1, ⟨[], [], [], [], [], [], []⟩)], [], some 0, none, some 1, none, 2⟩

/-- Witness for the amended C1: with a claim open and no service open, a
`DTM` record lands in the transaction-level list. -/
theorem to_json_innermost_routing_witness :
    processSegment routingWitnessState "DTM*232*20230101".toList
      = { routingWitnessState with txns := updAssoc routingWitnessState.txns 0 (fun t =>
          { t with dtm := t.dtm ++ [convertSegment dtmFields
              (split_segment "DTM*232*20230101".toList)] }) } :=
  (to_json_innermost_routing routingWitnessState _).2.1 0 rfl rfl rfl

/-- A service-loop dict never holds an empty collection: its
`DTM`/`CAS`/`REF`/`AMT` keys are created only when a record is appended. -/
def svcObjOk (v : SvcObj) : Prop :=
  v.dtm ≠ some [] ∧ v.cas ≠ some [] ∧ v.ref ≠ some [] ∧ v.amt ≠ some []

lemma svcsOk_of_append (l : List (Nat × SvcObj)) (i : Nat) (r : ConvRec)
    (h : ∀ p ∈ l, svcObjOk p.2) :
    ∀ p ∈ l ++ [(i, { svc := r })], svcObjOk p.2 := by
  intro p hp
  rcases List.mem_append.1 hp with hm | hm
  · exact h p hm
  · simp at hm
    rw [hm]
    simp [svcObjOk]

lemma svcsOk_of_upd (l : List (Nat × SvcObj)) (j : Nat) (f : SvcObj → SvcObj)
    (hf : ∀ v, svcObjOk v → svcObjOk (f v)) (h : ∀ p ∈ l, svcObjOk p.2) :
    ∀ p ∈ updAssoc l j f, svcObjOk p.2 := by
  intro p hp
  unfold updAssoc at hp
  obtain ⟨q, hq, hpq⟩ := List.mem_map.1 hp
  by_cases hqi : q.1 = j
  · rw [if_pos hqi] at hpq
    rw [← hpq]
    exact hf q.2 (h q hq)
  · rw [if_neg hqi] at hpq
    rw [← hpq]
    exact h q hq

lemma svcOk_upd_dtm (r : ConvRec) :
    ∀ v, svcObjOk v → svcObjOk { v with dtm := some (v.dtm.getD [] ++ [r]) } :=
  fun _ hv => ⟨by simp, hv.2.1, hv.2.2.1, hv.2.2.2⟩

lemma svcOk_upd_cas (r : ConvRec) :
    ∀ v, svcObjOk v → svcObjOk { v with cas := some (v.cas.getD [] ++ [r]) } :=
  fun _ hv => ⟨hv.1, by simp, hv.2.2.1, hv.2.2.2⟩

lemma svcOk_upd_ref (r : ConvRec) :
    ∀ v, svcObjOk v → svcObjOk { v with ref := some (v.ref.getD [] ++ [r]) } :=
  fun _ hv => ⟨hv.1, hv.2.1, by simp, hv.2.2.2⟩

lemma svcOk_upd_amt (r : ConvRec) :
    ∀ v, svcObjOk v → svcObjOk { v with amt := some (v.amt.getD [] ++ [r]) } :=
  fun _ hv => ⟨hv.1, hv.2.1, hv.2.2.1, by simp⟩

set_option maxHeartbeats 2000000 in
lemma processSegment_svcs_ok (st : JsonState) (seg : Str)
    (h : ∀ p ∈ st.svcs, svcObjOk p.2) :
    ∀ p ∈ (processSegment st seg).svcs, svcObjOk p.2 := by
  intro p hp
  unfold processSegment at hp
  by_cases h1 : (split_segment seg).headD [] = "ISA".toList
  · rw [if_pos h1] at hp
    exact h p hp
  rw [if_neg h1] at hp
  by_cases h2 : (split_segment seg).headD [] = "GS".toList
  · rw [if_pos h2] at hp
    exact h p hp
  rw [if_neg h2] at hp
  by_cases h3 : (split_segment seg).headD [] = "ST".toList
  · rw [if_pos h3] at hp
    exact h p hp
  rw [if_neg h3] at hp
  by_cases h4 : (split_segment seg).headD [] = "BPR".toList
  · rw [if_pos h4] at hp
    cases hct : st.curTxn <;> rw [hct] at hp <;> exact h p hp
  rw [if_neg h4] at hp
  by_cases h5 : (split_segment seg).headD [] = "TRN".toList
  · rw [if_pos h5] at hp
    cases hct : st.curTxn <;> rw [hct] at hp <;> exact h p hp
  rw [if_neg h5] at hp
  by_cases h6 : (split_segment seg).headD [] = "DTM".toList
  · rw [if_pos h6] at hp
    cases hct : st.curTxn with
    | none => rw [hct] at hp; exact h p hp
    | some i =>
      rw [hct] at hp
      cases hcs : st.curSvc with
      | some j => rw [hcs] at hp; exact svcsOk_of_upd _ _ _ (svcOk_upd_dtm _) h p hp
      | none => rw [hcs] at hp; exact h p hp
  rw [if_neg h6] at hp
  by_cases h7 : (split_segment seg).headD [] = "N1".toList
  · rw [if_pos h7] at hp
    cases hct : st.curTxn <;> rw [hct] at hp <;> exact h p hp
  rw [if_neg h7] at hp
  by_cases h8 : (split_segment seg).headD [] = "N3".toList
  · rw [if_pos h8] at hp
    cases hcn : st.curN1 <;> rw [hcn] at hp <;> exact h p hp
  rw [if_neg h8] at hp
  by_cases h9 : (split_segment seg).headD [] = "N4".toList
  · rw [if_pos h9] at hp
    cases hcn : st.curN1 <;> rw [hcn] at hp <;> exact h p hp
  rw [if_neg h9] at hp
  by_cases h10 : (split_segment seg).headD [] = "PER".toList
  · rw [if_pos h10] at hp
    cases hcn : st.curN1 <;> rw [hcn] at hp <;> exact h p hp
  rw [if_neg h10] at hp
  by_cases h11 : (split_segment seg).headD [] = "REF".toList
  · rw [if_pos h11] at hp
    cases hct : st.curTxn with
    | none => rw [hct] at hp; exact h p hp
    | some i =>
      rw [hct] at hp
      cases hcs : st.curSvc with
      | some j => rw [hcs] at hp; exact svcsOk_of_upd _ _ _ (svcOk_upd_ref _) h p hp
      | none =>
        rw [hcs] at hp
        cases hcc : st.curClp <;> rw [hcc] at hp <;> exact h p hp
  rw [if_neg h11] at hp
  by_cases h12 : (split_segment seg).headD [] = "LX".toList
  · rw [if_pos h12] at hp
    exact h p hp
  rw [if_neg h12] at hp
  by_cases h13 : (split_segment seg).headD [] = "CLP".toList
  · rw [if_pos h13] at hp
    cases hct : st.curTxn <;> rw [hct] at hp <;> exact h p hp
  rw [if_neg h13] at hp
  by_cases h14 : (split_segment seg).headD [] = "CAS".toList
  · rw [if_pos h14] at hp
    cases hcc : st.curClp with
    | none => rw [hcc] at hp; exact h p hp
    | some k =>
      rw [hcc] at hp
      cases hcs : st.curSvc with
      | some j => rw [hcs] at hp; exact svcsOk_of_upd _ _ _ (svcOk_upd_cas _) h p hp
      | none => rw [hcs] at hp; exact h p hp
  rw [if_neg h14] at hp
  by_cases h15 : (split_segment seg).headD [] = "NM1".toList
  · rw [if_pos h15] at hp
    cases hcc : st.curClp <;> rw [hcc] at hp <;> exact h p hp
  rw [if_neg h15] at hp
  by_cases h16 : (split_segment seg).headD [] = "AMT".toList
  · rw [if_pos h16] at hp
    cases hcc : st.curClp with
    | none => rw [hcc] at hp; exact h p hp
    | some k =>
      rw [hcc] at hp
      cases hcs : st.curSvc with
      | some j => rw [hcs] at hp; exact svcsOk_of_upd _ _ _ (svcOk_upd_amt _) h p hp
      | none => rw [hcs] at hp; exact h p hp
  rw [if_neg h16] at hp
  by_cases h17 : (split_segment seg).headD [] = "SVC".toList
  · rw [if_pos h17] at hp
    cases hcc : st.curClp with
    | none => rw [hcc] at hp; exact h p hp
    | some k => rw [hcc] at hp; exact svcsOk_of_append _ _ _ h p hp
  rw [if_neg h17] at hp
  by_cases h18 : (split_segment seg).headD [] = "PLB".toList
  · rw [if_pos h18] at hp
    cases hct : st.curTxn <;> rw [hct] at hp <;> exact h p hp
  rw [if_neg h18] at hp
  by_cases h19 : (split_segment seg).headD [] = "SE".toList
  · rw [if_pos h19] at hp
    cases hct : st.curTxn <;> rw [hct] at hp <;> exact h p hp
  rw [if_neg h19] at hp
  by_cases h20 : (split_segment seg).headD [] = "GE".toList
  · rw [if_pos h20] at hp
    exact h p hp
  rw [if_neg h20] at hp
  by_cases h21 : (split_segment seg).headD [] = "IEA".toList
  · rw [if_pos h21] at hp
    exact h p hp
  rw [if_neg h21] at hp
  exact h p hp

lemma foldl_processSegment_svcs_ok (segs : List Str) :
    ∀ st : JsonState, (∀ p ∈ st.svcs, svcObjOk p.2) →
      ∀ p ∈ (segs.foldl processSegment st).svcs, svcObjOk p.2 := by
  induction segs with
  | nil => intro st h; exact h
  | cons seg rest ih =>
    intro st h
    simp only [List.foldl_cons]
    exact ih (processSegment st seg) (processSegment_svcs_ok st seg h)

/-- C6 counterexample: a service loop with no service-level
`DTM`/`CAS`/`REF`/`AMT` records has those keys omitted from the emitted
tree (`none`), not present as empty lists. -/
theorem to_json_empty_collections_counterexample :
    ((to_json "ISA*x~ST*835*0001~CLP*A*1~SVC*HC*100*80".toList).transactions.map
        (fun t => t.clpLoop.map (fun c => c.svcLoop.map
          (fun v => (v.dtm, v.cas, v.ref, v.amt)))))
      = [[[(none, none, none, none)]]] := by
  rfl

/-- C6 amended: absent optional fields map to the empty string and the
transaction- and claim-level collections are pre-initialized (empty lists
when no record arrives), but the service-level `DTM`/`CAS`/`REF`/`AMT`
collections are created only on the first matching record: they are
omitted when empty, and whenever present they are non-empty. -/
theorem to_json_collections_and_absent_fields (names : List String) (parts : List Str)
    (i : Nat) (content : Str) :
    (i < names.length → parts.length ≤ i + 1 →
      ((convertSegment names parts).getD i ("", [])).2 = []) ∧
    (∀ t ∈ (to_json content).transactions, ∀ c ∈ t.clpLoop, ∀ v ∈ c.svcLoop,
      v.dtm ≠ some [] ∧ v.cas ≠ some [] ∧ v.ref ≠ some [] ∧ v.amt ≠ some []) := by
  constructor
  · intro h1 h2
    unfold convertSegment
    rw [List.getD_eq_getElem _ _ (by simpa using h1)]
    simp [List.getElem?_eq_none h2]
  · intro t ht c hc v hv
    have hinv := foldl_processSegment_svcs_ok (jsonRecords content) {}
      (fun p hp => absurd hp (List.not_mem_nil p))
    unfold to_json at ht
    obtain ⟨q, hq, hqt⟩ := List.mem_map.1 ht
    rw [← hqt] at hc
    obtain ⟨k, hk, hmk⟩ := List.mem_filterMap.1 hc
    unfold materializeClp at hmk
    obtain ⟨cObj, hlk, hco⟩ := Option.map_eq_some'.1 hmk
    rw [← hco] at hv
    obtain ⟨j, hj, hmj⟩ := List.mem_filterMap.1 hv
    unfold materializeSvc at hmj
    obtain ⟨vObj, hlv, hvo⟩ := Option.map_eq_some'.1 hmj
    unfold lookupId at hlv
    obtain ⟨q2, hfind, hq2⟩ := Option.map_eq_some'.1 hlv
    have hok := hinv q2 (List.mem_of_find?_eq_some hfind)
    rw [hq2] at hok
    rw [← hvo]
    exact hok

/-- Witness for the amended C6: a too-short `ISA` record yields an empty
string for its first field, and the concrete service loop built from
`ISA*x~ST*835*0001~CLP*A*1~SVC*HC*100*80` has all four service-level
collections absent — in particular its `DTM` key is not `some []`. -/
theorem to_json_collections_and_absent_fields_witness :
    ((convertSegment isaFields (split_segment "ISA".toList)).getD 0 ("", [])).2 = [] ∧
    ((((to_json "ISA*x~ST*835*0001~CLP*A*1~SVC*HC*100*80".toList).transactions.getD 0
          ⟨[], none, none, [], [], [], [], none⟩).clpLoop.getD 0
          ⟨[], [], [], [], [], [], []⟩).svcLoop.getD 0
          ⟨[], none, none, none, none⟩).dtm ≠ some [] := by
  constructor
  · exact (to_json_collections_and_absent_fields isaFields (split_segment "ISA".toList) 0
      "".toList).1 (by decide) (by decide)
  · exact ((to_json_collections_and_absent_fields [] [] 0
        "ISA*x~ST*835*0001~CLP*A*1~SVC*HC*100*80".toList).2
      ((to_json "ISA*x~ST*835*0001~CLP*A*1~SVC*HC*100*80".toList).transactions.getD 0
          ⟨[], none, none, [], [], [], [], none⟩)
      (by decide)
      (((to_json "ISA*x~ST*835*0001~CLP*A*1~SVC*HC*100*80".toList).transactions.getD 0
          ⟨[], none, none, [], [], [], [], none⟩).clpLoop.getD 0
          ⟨[], [], [], [], [], [], []⟩)
      (by decide)
      ((((to_json "ISA*x~ST*835*0001~CLP*A*1~SVC*HC*100*80".toList).transactions.getD 0
          ⟨[], none, none, [], [], [], [], none⟩).clpLoop.getD 0
          ⟨[], [], [], [], [], [], []⟩).svcLoop.getD 0
          ⟨[], none, none, none, none⟩)
      (by decide)).1
